import Mathlib

set_option autoImplicit false

/-!
# Xenon: MySQL probe layer and shell hooks

A shallow embedding of `src/mysql/mysqlbase.go` and `src/raft/cmd.go`.

Every operation of `MysqlBase` talks to MySQL only through the executor
helpers of package `mysql` (`QueryWithTimeout`, `ExecuteWithTimeout`,
`ExecuteSuperQueryListWithTimeout`, `Query`, `Execute`).  The embedding keeps
the connection as an explicit value `DB`: it records every executor call in
order and holds the server's reaction to each call as a function of the calls
made before it.  An operation is a function from `DB` to its Go results and
the `DB` afterwards.
-/

namespace Xenon

/-! ## Go standard library -/

/-- Go `error`, carried as its message; `none : Option Error` is `nil`. -/
abbrev Error := String

/-- The verb `%d` of `fmt.Sprintf` on a Go integer. -/
def fmtD (n : Int) : String := toString n

/-- Go `strings.Join`. -/
def Join : List String → String → String
  | [], _ => ""
  | [a], _ => a
  | a :: b :: rest, sep => a ++ sep ++ Join (b :: rest) sep

/-- Go `strings.HasPrefix`. -/
def HasPrefix (s pfx : String) : Bool := pfx.data.isPrefixOf s.data

/-- Go `strings.HasSuffix`. -/
def HasSuffix (s suffix : String) : Bool := suffix.data.isSuffixOf s.data

/-- Go `strings.TrimSuffix`: drops one trailing occurrence of `suffix`, if there is one. -/
def TrimSuffix (s suffix : String) : String :=
  if HasSuffix s suffix then ⟨s.data.take (s.data.length - suffix.data.length)⟩ else s

/-- Splitting of a character list at every occurrence of `sep`. -/
def splitChars (sep : Char) : List Char → List (List Char)
  | [] => [[]]
  | c :: cs =>
    if c = sep then [] :: splitChars sep cs
    else
      match splitChars sep cs with
      | [] => [[c]]
      | h :: t => (c :: h) :: t

/-- Go `strings.Split` for a separator of one character (the sources only split on `","`). -/
def Split (s : String) (sep : Char) : List String := (splitChars sep s.data).map String.mk

/-- Go `unicode.IsSpace`: the code points with the White_Space property. -/
def isSpace (c : Char) : Bool :=
  let n := c.toNat
  (9 ≤ n && n ≤ 13) || n == 32 || n == 0x85 || n == 0xA0 || n == 0x1680 ||
  (0x2000 ≤ n && n ≤ 0x200a) || n == 0x2028 || n == 0x2029 || n == 0x202f ||
  n == 0x205f || n == 0x3000

/-- Go `strings.TrimSpace`. -/
def TrimSpace (s : String) : String :=
  ⟨((s.data.dropWhile isSpace).reverse.dropWhile isSpace).reverse⟩

/-- Upper-casing of one ASCII byte, as in the ASCII branch of `strings.ToUpper`. -/
def asciiUpper (c : Char) : Char :=
  if 97 ≤ c.toNat ∧ c.toNat ≤ 122 then Char.ofNat (c.toNat - 32) else c

/-- Go `strings.ToUpper`.  A string of ASCII only is mapped byte by byte; any other string is
mapped rune by rune through `unicode.ToUpper`, whose Unicode case table is the parameter
`unicodeToUpper`. -/
def ToUpper (unicodeToUpper : Char → Char) (s : String) : String :=
  if s.data.all (fun c => decide (c.toNat < 128)) then ⟨s.data.map asciiUpper⟩
  else ⟨s.data.map unicodeToUpper⟩

/-- The largest `uint64`. -/
def maxUint64 : Nat := 2 ^ 64 - 1

/-- The digit loop of `strconv.ParseUint` in base 10 with 64 bits: `n` is the value so far.
A character that is not a decimal digit ends with `(0, syntax error)`; an overflow ends with
`(maxUint64, range error)` at the digit where it happens. -/
def parseUintLoop (s0 : String) : Nat → List Char → Nat × Option Error
  | n, [] => (n, none)
  | n, c :: cs =>
    if 48 ≤ c.toNat ∧ c.toNat ≤ 57 then
      let d := c.toNat - 48
      if n ≥ maxUint64 / 10 + 1 then
        (maxUint64, some ("strconv.ParseUint: parsing \"" ++ s0 ++ "\": value out of range"))
      else
        let n1 := n * 10 + d
        if n1 > maxUint64 then
          (maxUint64, some ("strconv.ParseUint: parsing \"" ++ s0 ++ "\": value out of range"))
        else parseUintLoop s0 n1 cs
    else (0, some ("strconv.ParseUint: parsing \"" ++ s0 ++ "\": invalid syntax"))

/-- Go `strconv.ParseUint(s, 10, 64)`. -/
def ParseUint (s : String) : Nat × Option Error :=
  if s = "" then (0, some ("strconv.ParseUint: parsing \"" ++ s ++ "\": invalid syntax"))
  else parseUintLoop s 0 s.data

/-! ## The connection and the executors of package `mysql` -/

/-- One result row, Go `map[string]string`; a missing key reads as `""`. -/
structure Row where
  cols : List (String × String)
deriving DecidableEq, Repr

/-- Go map indexing `row[key]`. -/
def Row.get (row : Row) (key : String) : String :=
  match row.cols.find? (fun kv => kv.1 == key) with
  | some kv => kv.2
  | none => ""

/-- One call of an executor helper of package `mysql`, with its arguments. -/
inductive DBCall where
  | QueryWithTimeout (timeout : Int) (query : String)
  | Query (query : String)
  | ExecuteWithTimeout (timeout : Int) (query : String)
  | Execute (query : String)
  | ExecuteSuperQueryListWithTimeout (timeout : Int) (cmds : List String)
  | ExecuteSuperQueryList (cmds : List String)
deriving DecidableEq, Repr

/-- The timeout an executor call carries, if it carries one. -/
def DBCall.timeout? : DBCall → Option Int
  | .QueryWithTimeout t _ => some t
  | .Query _ => none
  | .ExecuteWithTimeout t _ => some t
  | .Execute _ => none
  | .ExecuteSuperQueryListWithTimeout t _ => some t
  | .ExecuteSuperQueryList _ => none

/-- The connection `*sql.DB` as the operations see it.  The bodies of the executor helpers are
not part of the sources at hand, so the server's reaction is a parameter: `answer calls c` is
what the call `c` returns after the calls `calls`.  `calls` is the record of the calls made so
far, oldest first. -/
structure DB where
  answer : List DBCall → DBCall → Except Error (List Row)
  calls : List DBCall

/-- Makes one executor call: reads the reaction and records the call. -/
def DB.submit (db : DB) (c : DBCall) : Except Error (List Row) × DB :=
  (db.answer db.calls c, { db with calls := db.calls ++ [c] })

/-- The `error` result of a statement that returns no rows. -/
def errOf {α : Type} : Except Error α → Option Error
  | .ok _ => none
  | .error e => some e

def QueryWithTimeout (db : DB) (timeout : Int) (query : String) :
    Except Error (List Row) × DB :=
  db.submit (.QueryWithTimeout timeout query)

def Query (db : DB) (query : String) : Except Error (List Row) × DB :=
  db.submit (.Query query)

def ExecuteWithTimeout (db : DB) (timeout : Int) (query : String) : Option Error × DB :=
  let r := db.submit (.ExecuteWithTimeout timeout query)
  (errOf r.1, r.2)

def Execute (db : DB) (query : String) : Option Error × DB :=
  let r := db.submit (.Execute query)
  (errOf r.1, r.2)

def ExecuteSuperQueryListWithTimeout (db : DB) (timeout : Int) (cmds : List String) :
    Option Error × DB :=
  let r := db.submit (.ExecuteSuperQueryListWithTimeout timeout cmds)
  (errOf r.1, r.2)

/-! ## Package `model` -/

/-- The record `model.GTID`, with the fields the probe fills.  The default of each field is its
Go zero value, so `({} : GTID)` is `model.GTID{}`. -/
structure GTID where
  Master_Log_File : String := ""
  Read_Master_Log_Pos : Nat := 0
  Retrieved_GTID_Set : String := ""
  Executed_GTID_Set : String := ""
  Slave_IO_Running : Bool := false
  Slave_IO_Running_Str : String := ""
  Slave_SQL_Running : Bool := false
  Slave_SQL_Running_Str : String := ""
  Seconds_Behind_Master : String := ""
  Last_Error : String := ""
  Last_IO_Error : String := ""
  Last_SQL_Error : String := ""
  Slave_SQL_Running_State : String := ""
deriving DecidableEq, Repr

/-- The record `model.Repl`, with the fields `ChangeMasterTo` reads. -/
structure Repl where
  Master_Host : String := ""
  Master_Port : Int := 0
  Repl_User : String := ""
  Repl_Password : String := ""
  Repl_GTID_Purged : String := ""
deriving DecidableEq, Repr

/-- The record `PingEntry`. -/
structure PingEntry where
  Relay_Master_Log_File : String := ""
deriving DecidableEq, Repr

/-! ## `src/mysql/mysqlbase.go` -/

def mysqlAllPrivileges : List String := ["ALL"]

def mysqlReplPrivileges : List String := ["REPLICATION SLAVE", "REPLICATION CLIENT"]

def mysqlNormalPrivileges : List String :=
  ["ALTER", "ALTER ROUTINE", "CREATE", "CREATE ROUTINE",
   "CREATE TEMPORARY TABLES", "CREATE VIEW", "DELETE",
   "DROP", "EXECUTE", "EVENT", "INDEX", "INSERT",
   "LOCK TABLES", "PROCESS", "RELOAD", "SELECT",
   "SHOW DATABASES", "SHOW VIEW", "UPDATE", "TRIGGER", "REFERENCES",
   "REPLICATION SLAVE", "REPLICATION CLIENT"]

def SSLTypYes : String := "YES"

def SSLTypNo : String := "NO"

/-- The receiver `MysqlBase`. -/
structure MysqlBase where
  queryTimeout : Int := 10000
deriving DecidableEq, Repr

def MysqlBase.SetQueryTimeout (_my : MysqlBase) (timeout : Int) : MysqlBase :=
  { queryTimeout := timeout }

def MysqlBase.Ping (my : MysqlBase) (db : DB) : (Option PingEntry × Option Error) × DB :=
  let query := "SHOW SLAVE STATUS"
  match QueryWithTimeout db my.queryTimeout query with
  | (.error err, db) => ((none, some err), db)
  | (.ok rows, db) =>
    match rows with
    | row :: _ => ((some { Relay_Master_Log_File := row.get "Relay_Master_Log_File" }, none), db)
    | [] => ((some {}, none), db)

def MysqlBase.SetReadOnly (my : MysqlBase) (db : DB) (readonly : Bool) : Option Error × DB :=
  let enabled : Int := if readonly then 1 else 0
  let cmds : List String := []
  let cmds := cmds ++ ["SET GLOBAL read_only = " ++ fmtD enabled]
  let cmds := cmds ++ ["SET GLOBAL super_read_only = " ++ fmtD enabled]
  ExecuteSuperQueryListWithTimeout db my.queryTimeout cmds

def MysqlBase.GetSlaveGTID (my : MysqlBase) (db : DB) : (Option GTID × Option Error) × DB :=
  let gtid : GTID := {}
  let query := "SHOW SLAVE STATUS"
  match QueryWithTimeout db my.queryTimeout query with
  | (.error err, db) => ((some gtid, some err), db)
  | (.ok rows, db) =>
    match rows with
    | row :: _ =>
      ((some
        { Master_Log_File := row.get "Master_Log_File"
          Read_Master_Log_Pos := (ParseUint (row.get "Read_Master_Log_Pos")).1
          Retrieved_GTID_Set := row.get "Retrieved_Gtid_Set"
          Executed_GTID_Set := row.get "Executed_Gtid_Set"
          Slave_IO_Running := (row.get "Slave_IO_Running" == "Yes")
          Slave_IO_Running_Str := row.get "Slave_IO_Running"
          Slave_SQL_Running := (row.get "Slave_SQL_Running" == "Yes")
          Slave_SQL_Running_Str := row.get "Slave_SQL_Running"
          Seconds_Behind_Master := row.get "Seconds_Behind_Master"
          Last_Error := row.get "Last_Error"
          Last_IO_Error := row.get "Last_IO_Error"
          Last_SQL_Error := row.get "Last_SQL_Error"
          Slave_SQL_Running_State := row.get "Slave_SQL_Running_State" }, none), db)
    | [] => ((some gtid, none), db)

def MysqlBase.GetMasterGTID (my : MysqlBase) (db : DB) : (Option GTID × Option Error) × DB :=
  let gtid : GTID := {}
  let query := "SHOW MASTER STATUS"
  match QueryWithTimeout db my.queryTimeout query with
  | (.error err, db) => ((none, some err), db)
  | (.ok rows, db) =>
    match rows with
    | row :: _ =>
      ((some
        { gtid with
          Master_Log_File := row.get "File"
          Read_Master_Log_Pos := (ParseUint (row.get "Position")).1
          Executed_GTID_Set := row.get "Executed_Gtid_Set"
          Seconds_Behind_Master := "0"
          Slave_IO_Running := true
          Slave_SQL_Running := true }, none), db)
    | [] => ((some gtid, none), db)

def MysqlBase.GetUUID (my : MysqlBase) (db : DB) : (String × Option Error) × DB :=
  let uuid := ""
  let query := "SELECT @@SERVER_UUID"
  match QueryWithTimeout db my.queryTimeout query with
  | (.error err, db) => ((uuid, some err), db)
  | (.ok rows, db) =>
    match rows with
    | row :: _ => ((row.get "@@SERVER_UUID", none), db)
    | [] => ((uuid, none), db)

def MysqlBase.StartSlaveIOThread (my : MysqlBase) (db : DB) : Option Error × DB :=
  let cmd := "START SLAVE IO_THREAD"
  ExecuteWithTimeout db my.queryTimeout cmd

def MysqlBase.StopSlaveIOThread (my : MysqlBase) (db : DB) : Option Error × DB :=
  let cmd := "STOP SLAVE IO_THREAD"
  ExecuteWithTimeout db my.queryTimeout cmd

def MysqlBase.StartSlave (my : MysqlBase) (db : DB) : Option Error × DB :=
  let cmd := "START SLAVE"
  ExecuteWithTimeout db my.queryTimeout cmd

def MysqlBase.StopSlave (my : MysqlBase) (db : DB) : Option Error × DB :=
  let cmd := "STOP SLAVE"
  ExecuteWithTimeout db my.queryTimeout cmd

def MysqlBase.changeMasterToCommands (_my : MysqlBase) (master : Repl) : List String :=
  let args : List String := []
  let args := args ++ ["MASTER_HOST = '" ++ master.Master_Host ++ "'"]
  let args := args ++ ["MASTER_PORT = " ++ fmtD master.Master_Port]
  let args := args ++ ["MASTER_USER = '" ++ master.Repl_User ++ "'"]
  let args := args ++ ["MASTER_PASSWORD = '" ++ master.Repl_Password ++ "'"]
  let args := args ++ ["MASTER_AUTO_POSITION = 1"]
  let changeMasterTo := "CHANGE MASTER TO\n  " ++ Join args ",\n  "
  [changeMasterTo]

def MysqlBase.ChangeMasterTo (my : MysqlBase) (db : DB) (master : Repl) : Option Error × DB :=
  let cmds : List String := []
  let cmds := cmds ++ ["STOP SLAVE"]
  let cmds :=
    if master.Repl_GTID_Purged ≠ "" then
      cmds ++ ["RESET MASTER"] ++ ["RESET SLAVE ALL"] ++
        ["SET GLOBAL gtid_purged='" ++ master.Repl_GTID_Purged ++ "'"]
    else cmds
  let cmds := cmds ++ my.changeMasterToCommands master
  let cmds := cmds ++ ["START SLAVE"]
  ExecuteSuperQueryListWithTimeout db my.queryTimeout cmds

def MysqlBase.ChangeToMaster (my : MysqlBase) (db : DB) : Option Error × DB :=
  let cmds := ["STOP SLAVE", "RESET SLAVE ALL"]
  ExecuteSuperQueryListWithTimeout db my.queryTimeout cmds

def MysqlBase.WaitUntilAfterGTID (_my : MysqlBase) (db : DB) (targetGTID : String) :
    Option Error × DB :=
  let query := "SELECT WAIT_UNTIL_SQL_THREAD_AFTER_GTIDS('" ++ targetGTID ++ "')"
  Execute db query

def MysqlBase.GetGTIDSubtract (my : MysqlBase) (db : DB) (subsetGTID setGTID : String) :
    (String × Option Error) × DB :=
  let query := "SELECT GTID_SUBTRACT('" ++ subsetGTID ++ "','" ++ setGTID ++ "') as gtid_sub"
  match QueryWithTimeout db my.queryTimeout query with
  | (.error err, db) => (("", some err), db)
  | (.ok rows, db) =>
    match rows with
    | row :: _ =>
      let gtid_sub := row.get "gtid_sub"
      ((gtid_sub, none), db)
    | [] => (("", none), db)

def MysqlBase.SetGlobalSysVar (my : MysqlBase) (db : DB) (varsql : String) : Option Error × DB :=
  let pfx := "SET GLOBAL"
  if !HasPrefix varsql pfx then
    (some ("[" ++ varsql ++ "].must.be.startwith:" ++ pfx), db)
  else ExecuteWithTimeout db my.queryTimeout varsql

def MysqlBase.ResetSlaveAll (my : MysqlBase) (db : DB) : Option Error × DB :=
  let cmds := ["STOP SLAVE", "RESET SLAVE ALL"]
  ExecuteSuperQueryListWithTimeout db my.queryTimeout cmds

def MysqlBase.CreateUser (_my : MysqlBase) (unicodeToUpper : Char → Char) (db : DB)
    (user host passwd ssltype : String) : Option Error × DB :=
  let query := "CREATE USER `" ++ user ++ "`@`" ++ host ++ "` IDENTIFIED BY '" ++ passwd ++ "'"
  let query :=
    if ToUpper unicodeToUpper ssltype = SSLTypYes then query ++ " REQUIRE X509" else query
  Execute db query

def MysqlBase.grantPrivileges (_my : MysqlBase) (db : DB) (query : String) : Option Error × DB :=
  Execute db query

/-- The loop `for _, priv := range privsList` of `CreateUserWithPrivileges`: the first element
that, trimmed and upper-cased, is not a key of the map `normal` ends the function with an
error. -/
def checkPrivs (unicodeToUpper : Char → Char) (normal : List (String × String))
    (user : String) : List String → Option Error
  | [] => none
  | priv :: rest =>
    let priv := ToUpper unicodeToUpper (TrimSpace priv)
    match normal.lookup priv with
    | none => some ("can't create user[" ++ user ++ "] with privileges[" ++ priv ++ "]")
    | some _ => checkPrivs unicodeToUpper normal user rest

def MysqlBase.CreateUserWithPrivileges (my : MysqlBase) (unicodeToUpper : Char → Char) (db : DB)
    (user passwd database table host privs ssl : String) : Option Error × DB :=
  let normal : List (String × String) := mysqlNormalPrivileges.map (fun priv => (priv, priv))
  let privs := TrimSuffix privs ","
  let privsList := Split privs ','
  match checkPrivs unicodeToUpper normal user privsList with
  | some err => (some err, db)
  | none =>
    let upperSSL := ToUpper unicodeToUpper ssl
    if upperSSL ≠ SSLTypYes ∧ upperSSL ≠ SSLTypNo then
      (some ("wrong ssl_type[" ++ ssl ++ "], it should be 'YES' or 'NO'"), db)
    else
      match my.CreateUser unicodeToUpper db user host passwd upperSSL with
      | (some err, db) =>
        (some ("create user[" ++ user ++ "] with privileges[" ++ privs ++
          "] require ssl_type[" ++ ssl ++ "] failed: [" ++ err ++ "]"), db)
      | (none, db) =>
        let query := "GRANT " ++ privs ++ " ON " ++ database ++ "." ++ table ++
          " TO `" ++ user ++ "`@`" ++ host ++ "`"
        my.grantPrivileges db query

def MysqlBase.GrantAllPrivileges (my : MysqlBase) (unicodeToUpper : Char → Char) (db : DB)
    (user host passwd ssl : String) : Option Error × DB :=
  let upperSSL := ToUpper unicodeToUpper ssl
  if upperSSL ≠ SSLTypYes ∧ upperSSL ≠ SSLTypNo then
    (some ("wrong ssl_type[" ++ ssl ++ "], it should be 'YES' or 'NO'"), db)
  else
    match my.CreateUser unicodeToUpper db user host passwd upperSSL with
    | (some err, db) =>
      (some ("create user[" ++ user ++ "]@[" ++ host ++
        "] with all privileges require ssl_type[" ++ ssl ++ "] failed: [" ++ err ++ "]"), db)
    | (none, db) =>
      let query := "GRANT " ++ Join mysqlAllPrivileges "," ++ " ON *.* TO `" ++ user ++
        "`@`" ++ host ++ "` WITH GRANT OPTION"
      my.grantPrivileges db query

/-! ## `src/raft/cmd.go` -/

/-- The three hook commands of the configuration `r.conf`. -/
structure RaftConfig where
  LeaderStartCommand : String := ""
  LeaderStopCommand : String := ""
  LeaderFenceCommand : String := ""
deriving DecidableEq, Repr

/-- One call `r.cmd.RunCommand(name, args)`. -/
structure CmdCall where
  name : String
  args : List String
deriving DecidableEq, Repr

/-- The command runner `r.cmd`.  Its body is not part of the sources at hand, so its reaction
is a parameter: `answer calls c` is the output and error of the call `c` after the calls
`calls`.  `calls` records the calls made so far, oldest first. -/
structure Command where
  answer : List CmdCall → CmdCall → String × Option Error
  calls : List CmdCall

def Command.RunCommand (cmd : Command) (name : String) (args : List String) :
    (String × Option Error) × Command :=
  (cmd.answer cmd.calls ⟨name, args⟩, { cmd with calls := cmd.calls ++ [⟨name, args⟩] })

/-- One call of the logger, `r.ERROR(format, args, out, err)` or `r.WARNING(format, args)`,
kept with its arguments unformatted. -/
inductive LogCall where
  | ERROR (format : String) (args : List String) (out : String) (err : Error)
  | WARNING (format : String) (args : List String)
deriving DecidableEq, Repr

/-- The parts of `Raft` the shell hooks and the administrator RPCs use: configuration, command
runner, logger, and the two administrator toggles of the node state (both off at boot, the Go
zero value). -/
structure Raft where
  conf : RaftConfig
  cmd : Command
  log : List LogCall
  skip_purge_binlog : Bool := false
  skip_check_semi_sync : Bool := false

def bash : String := "bash"

def Raft.leaderStartShellCommand (r : Raft) : Option Error × Raft :=
  let args := ["-c", r.conf.LeaderStartCommand]
  match r.cmd.RunCommand bash args with
  | ((out, some err), cmd) =>
    (some err, { r with
      cmd := cmd
      log := r.log ++ [.ERROR "leaderStartShellCommand[%v].out[%v].error[%+v]" args out err] })
  | ((_, none), cmd) =>
    (none, { r with
      cmd := cmd
      log := r.log ++ [.WARNING "leaderStartShellCommand[%v].done" args] })

def Raft.leaderStopShellCommand (r : Raft) : Option Error × Raft :=
  let args := ["-c", r.conf.LeaderStopCommand]
  match r.cmd.RunCommand bash args with
  | ((out, some err), cmd) =>
    (some err, { r with
      cmd := cmd
      log := r.log ++ [.ERROR "leaderStopShellCommand[%v].out[%v].error[%+v]" args out err] })
  | ((_, none), cmd) =>
    (none, { r with
      cmd := cmd
      log := r.log ++ [.WARNING "leaderStopShellCommand[%v].done" args] })

def Raft.leaderFailoverShellCommand (r : Raft) : Option Error × Raft :=
  let args := ["-c", r.conf.LeaderFenceCommand]
  match r.cmd.RunCommand bash args with
  | ((out, some err), cmd) =>
    (some err, { r with
      cmd := cmd
      log := r.log ++ [.ERROR "leaderFailoverShellCommand[%v].out[%v].error[%+v]" args out err] })
  | ((_, none), cmd) =>
    (none, { r with
      cmd := cmd
      log := r.log ++ [.WARNING "leaderFailoverShellCommand[%v].done" args] })

/-! ## `src/raft/rpc_raft.go` -/

/-- Modelled from the spec: the setter `Raft.SetSkipPurgeBinlog`, which `rpc_raft.go` calls but
whose body is not among the sources.  The spec lists `skip_purge_binlog` in the node state as an
administrator toggle; the setter stores its argument there and touches nothing else. -/
def Raft.SetSkipPurgeBinlog (r : Raft) (v : Bool) : Raft :=
  { r with skip_purge_binlog := v }

/-- Modelled from the spec: the setter `Raft.SetSkipCheckSemiSync`, which `rpc_raft.go` calls
but whose body is not among the sources.  The spec lists `skip_check_semi_sync` in the node
state as an administrator toggle; the setter stores its argument there and touches nothing
else. -/
def Raft.SetSkipCheckSemiSync (r : Raft) (v : Bool) : Raft :=
  { r with skip_check_semi_sync := v }

/-- The receiver `RaftRPC`. -/
structure RaftRPC where
  raft : Raft

/-- `EnablePurgeBinlog` rpc.  The request and response records of package `model` are not among
the sources; their types are parameters.  The response is returned next to the error so that
what the call wrote to it can be read off. -/
def RaftRPC.EnablePurgeBinlog {Req Rsp : Type} (r : RaftRPC) (_req : Req) (rsp : Rsp) :
    (Option Error × Rsp) × RaftRPC :=
  let r := { r with raft := r.raft.SetSkipPurgeBinlog false }
  ((none, rsp), r)

/-- `DisablePurgeBinlog` rpc. -/
def RaftRPC.DisablePurgeBinlog {Req Rsp : Type} (r : RaftRPC) (_req : Req) (rsp : Rsp) :
    (Option Error × Rsp) × RaftRPC :=
  let r := { r with raft := r.raft.SetSkipPurgeBinlog true }
  ((none, rsp), r)

/-- `EnableCheckSemiSync` rpc. -/
def RaftRPC.EnableCheckSemiSync {Req Rsp : Type} (r : RaftRPC) (_req : Req) (rsp : Rsp) :
    (Option Error × Rsp) × RaftRPC :=
  let r := { r with raft := r.raft.SetSkipCheckSemiSync false }
  ((none, rsp), r)

/-- `DisableCheckSemiSync` rpc. -/
def RaftRPC.DisableCheckSemiSync {Req Rsp : Type} (r : RaftRPC) (_req : Req) (rsp : Rsp) :
    (Option Error × Rsp) × RaftRPC :=
  let r := { r with raft := r.raft.SetSkipCheckSemiSync true }
  ((none, rsp), r)

/-! ## Concrete inputs -/

/-- A first row of `SHOW SLAVE STATUS` whose `Read_Master_Log_Pos` is not a number. -/
def slaveStatusRow : Row :=
  ⟨[("Master_Log_File", "mysql-bin.000001"), ("Read_Master_Log_Pos", "abc"),
    ("Executed_Gtid_Set", "uuid1:1-100"), ("Slave_IO_Running", "Yes"),
    ("Slave_SQL_Running", "Yes")]⟩

/-- A first row of `SHOW MASTER STATUS` whose `Position` is out of the range of `uint64`. -/
def masterStatusRow : Row :=
  ⟨[("File", "mysql-bin.000001"), ("Position", "18446744073709551616"),
    ("Executed_Gtid_Set", "uuid1:1-100")]⟩

/-- A server that answers the two status queries with the rows above, and every other call
with success and no rows; no call has been made yet. -/
def sampleDB : DB where
  answer := fun _ c =>
    if c = DBCall.QueryWithTimeout 10000 "SHOW SLAVE STATUS" then .ok [slaveStatusRow]
    else if c = DBCall.QueryWithTimeout 10000 "SHOW MASTER STATUS" then .ok [masterStatusRow]
    else .ok []
  calls := []

/-- A node with the three hooks configured and a runner on which every command succeeds. -/
def sampleRaft : Raft where
  conf :=
    { LeaderStartCommand := "start-vip.sh"
      LeaderStopCommand := "stop-vip.sh"
      LeaderFenceCommand := "fence.sh" }
  cmd := { answer := fun _ _ => ("", none), calls := [] }
  log := []

/-! ## Properties of the replication and read-only operations -/

/-- C1: `ChangeMasterTo` makes one call of `ExecuteSuperQueryListWithTimeout` whose statement
list is `STOP SLAVE`, then (only when `Repl_GTID_Purged` is not empty) `RESET MASTER`,
`RESET SLAVE ALL`, `SET GLOBAL gtid_purged='...'`, then the one `CHANGE MASTER TO` statement of
`changeMasterToCommands` (host, port, user, password, ending in `MASTER_AUTO_POSITION = 1`),
then `START SLAVE`.  With an empty `Repl_GTID_Purged` the list has three statements, none of
which is a `RESET` or a `gtid_purged` statement. -/
theorem ChangeMasterTo_statement_list (my : MysqlBase) (db : DB) (master : Repl) :
    my.changeMasterToCommands master =
      ["CHANGE MASTER TO\n  MASTER_HOST = '" ++ master.Master_Host ++
        "',\n  MASTER_PORT = " ++ fmtD master.Master_Port ++
        ",\n  MASTER_USER = '" ++ master.Repl_User ++
        "',\n  MASTER_PASSWORD = '" ++ master.Repl_Password ++
        "',\n  MASTER_AUTO_POSITION = 1"] ∧
    (my.ChangeMasterTo db master).2.calls = db.calls ++
      [DBCall.ExecuteSuperQueryListWithTimeout my.queryTimeout
        (if master.Repl_GTID_Purged = "" then
          ["STOP SLAVE"] ++ my.changeMasterToCommands master ++ ["START SLAVE"]
        else
          ["STOP SLAVE", "RESET MASTER", "RESET SLAVE ALL",
            "SET GLOBAL gtid_purged='" ++ master.Repl_GTID_Purged ++ "'"] ++
          my.changeMasterToCommands master ++ ["START SLAVE"])] ∧
    (["STOP SLAVE"] ++ my.changeMasterToCommands master ++ ["START SLAVE"]).length = 3 ∧
    (["STOP SLAVE"] ++ my.changeMasterToCommands master ++ ["START SLAVE"]).all
      (fun s => !HasPrefix s "RESET" && !HasPrefix s "SET GLOBAL gtid_purged") = true := by
  have hcmd : my.changeMasterToCommands master =
      ["CHANGE MASTER TO\n  MASTER_HOST = '" ++ master.Master_Host ++
        "',\n  MASTER_PORT = " ++ fmtD master.Master_Port ++
        ",\n  MASTER_USER = '" ++ master.Repl_User ++
        "',\n  MASTER_PASSWORD = '" ++ master.Repl_Password ++
        "',\n  MASTER_AUTO_POSITION = 1"] := by
    simp only [MysqlBase.changeMasterToCommands, Join, List.nil_append, List.cons_append,
      List.cons.injEq, and_true]
    apply String.ext
    simp only [String.data_append, List.append_assoc]
    rfl
  refine ⟨hcmd, ?_, ?_, ?_⟩
  · by_cases h : master.Repl_GTID_Purged = "" <;>
      simp [MysqlBase.ChangeMasterTo, ExecuteSuperQueryListWithTimeout, DB.submit, h]
  · rw [hcmd]; rfl
  · rw [hcmd]
    simp only [List.cons_append, List.nil_append, List.all_cons, List.all_nil, Bool.and_true,
      Bool.and_eq_true, Bool.not_eq_true', HasPrefix, String.data_append, List.append_assoc]
    refine ⟨⟨rfl, rfl⟩, ⟨rfl, rfl⟩, ⟨rfl, rfl⟩⟩

/-- C2: `SetReadOnly` makes one call of `ExecuteSuperQueryListWithTimeout` with exactly the two
statements `SET GLOBAL read_only = v` and `SET GLOBAL super_read_only = v`, in that order, with
the same `v` in both: `1` when `readonly` is true and `0` when it is false. -/
theorem SetReadOnly_statement_list (my : MysqlBase) (db : DB) (readonly : Bool) :
    (my.SetReadOnly db readonly).2.calls = db.calls ++
      [DBCall.ExecuteSuperQueryListWithTimeout my.queryTimeout
        ["SET GLOBAL read_only = " ++ (if readonly then "1" else "0"),
         "SET GLOBAL super_read_only = " ++ (if readonly then "1" else "0")]] := by
  cases readonly <;> rfl

/-- C3: `GetGTIDSubtract` makes exactly one call, `QueryWithTimeout` of
`SELECT GTID_SUBTRACT('<subsetGTID>','<setGTID>') as gtid_sub` with `subsetGTID` first and
`setGTID` second.  If the query fails the result is `""` with that error; if it returns no row
the result is `""` with no error; otherwise it is the column `gtid_sub` of the first row with
no error. -/
theorem GetGTIDSubtract_query_and_result (my : MysqlBase) (db : DB)
    (subsetGTID setGTID : String) :
    (my.GetGTIDSubtract db subsetGTID setGTID).2.calls = db.calls ++
      [DBCall.QueryWithTimeout my.queryTimeout
        ("SELECT GTID_SUBTRACT('" ++ subsetGTID ++ "','" ++ setGTID ++ "') as gtid_sub")] ∧
    (my.GetGTIDSubtract db subsetGTID setGTID).1 =
      (match db.answer db.calls
          (DBCall.QueryWithTimeout my.queryTimeout
            ("SELECT GTID_SUBTRACT('" ++ subsetGTID ++ "','" ++ setGTID ++ "') as gtid_sub")) with
        | .error err => ("", some err)
        | .ok [] => ("", none)
        | .ok (row :: _) => (row.get "gtid_sub", none)) := by
  simp only [MysqlBase.GetGTIDSubtract, QueryWithTimeout, DB.submit]
  cases h : db.answer db.calls
      (DBCall.QueryWithTimeout my.queryTimeout
        ("SELECT GTID_SUBTRACT('" ++ subsetGTID ++ "','" ++ setGTID ++ "') as gtid_sub")) with
  | error err => exact ⟨rfl, rfl⟩
  | ok rows => cases rows <;> exact ⟨rfl, rfl⟩

/-! ## Which executor each probe operation uses -/

theorem GetGTIDSubtract_calls (my : MysqlBase) (db : DB) (subsetGTID setGTID : String) :
    (my.GetGTIDSubtract db subsetGTID setGTID).2.calls = db.calls ++
      [DBCall.QueryWithTimeout my.queryTimeout
        ("SELECT GTID_SUBTRACT('" ++ subsetGTID ++ "','" ++ setGTID ++ "') as gtid_sub")] := by
  simp only [MysqlBase.GetGTIDSubtract, QueryWithTimeout, DB.submit]
  cases h : db.answer db.calls
      (DBCall.QueryWithTimeout my.queryTimeout
        ("SELECT GTID_SUBTRACT('" ++ subsetGTID ++ "','" ++ setGTID ++ "') as gtid_sub")) with
  | error err => rfl
  | ok rows => cases rows <;> rfl

theorem Ping_calls (my : MysqlBase) (db : DB) :
    (my.Ping db).2.calls =
      db.calls ++ [DBCall.QueryWithTimeout my.queryTimeout "SHOW SLAVE STATUS"] := by
  simp only [MysqlBase.Ping, QueryWithTimeout, DB.submit]
  cases h : db.answer db.calls (DBCall.QueryWithTimeout my.queryTimeout "SHOW SLAVE STATUS") with
  | error err => rfl
  | ok rows => cases rows <;> rfl

theorem GetSlaveGTID_calls (my : MysqlBase) (db : DB) :
    (my.GetSlaveGTID db).2.calls =
      db.calls ++ [DBCall.QueryWithTimeout my.queryTimeout "SHOW SLAVE STATUS"] := by
  simp only [MysqlBase.GetSlaveGTID, QueryWithTimeout, DB.submit]
  cases h : db.answer db.calls (DBCall.QueryWithTimeout my.queryTimeout "SHOW SLAVE STATUS") with
  | error err => rfl
  | ok rows => cases rows <;> rfl

theorem GetMasterGTID_calls (my : MysqlBase) (db : DB) :
    (my.GetMasterGTID db).2.calls =
      db.calls ++ [DBCall.QueryWithTimeout my.queryTimeout "SHOW MASTER STATUS"] := by
  simp only [MysqlBase.GetMasterGTID, QueryWithTimeout, DB.submit]
  cases h : db.answer db.calls (DBCall.QueryWithTimeout my.queryTimeout "SHOW MASTER STATUS") with
  | error err => rfl
  | ok rows => cases rows <;> rfl

theorem GetUUID_calls (my : MysqlBase) (db : DB) :
    (my.GetUUID db).2.calls =
      db.calls ++ [DBCall.QueryWithTimeout my.queryTimeout "SELECT @@SERVER_UUID"] := by
  simp only [MysqlBase.GetUUID, QueryWithTimeout, DB.submit]
  cases h : db.answer db.calls (DBCall.QueryWithTimeout my.queryTimeout "SELECT @@SERVER_UUID") with
  | error err => rfl
  | ok rows => cases rows <;> rfl

/-- C4, counterexample: `WaitUntilAfterGTID` issues its statement through `Execute`, a call
that carries no timeout. -/
theorem WaitUntilAfterGTID_call_has_no_timeout :
    (({} : MysqlBase).WaitUntilAfterGTID sampleDB "uuid1:1-100").2.calls =
      [DBCall.Execute "SELECT WAIT_UNTIL_SQL_THREAD_AFTER_GTIDS('uuid1:1-100')"] ∧
    ¬ ((({} : MysqlBase).WaitUntilAfterGTID sampleDB "uuid1:1-100").2.calls.all
        (fun c => decide (c.timeout? = some ({} : MysqlBase).queryTimeout)) = true) := by
  decide

/-- C4, amended: each of ping, slave_gtid, master_gtid, uuid, set_read_only, start_slave,
stop_slave, start_io_thread, stop_io_thread, change_master_to, change_to_master and
gtid_subtract makes exactly one executor call and that call carries the configured timeout
`my.queryTimeout`, which is what `SetQueryTimeout` stored; `WaitUntilAfterGTID` makes exactly
one call, of `Execute`, which carries no timeout. -/
theorem probe_operations_timeouts (my : MysqlBase) (db : DB) (readonly : Bool) (master : Repl)
    (targetGTID subsetGTID setGTID : String) (timeout : Int) :
    (my.SetQueryTimeout timeout).queryTimeout = timeout ∧
    (∃ c, (my.Ping db).2.calls = db.calls ++ [c] ∧ c.timeout? = some my.queryTimeout) ∧
    (∃ c, (my.GetSlaveGTID db).2.calls = db.calls ++ [c] ∧
      c.timeout? = some my.queryTimeout) ∧
    (∃ c, (my.GetMasterGTID db).2.calls = db.calls ++ [c] ∧
      c.timeout? = some my.queryTimeout) ∧
    (∃ c, (my.GetUUID db).2.calls = db.calls ++ [c] ∧ c.timeout? = some my.queryTimeout) ∧
    (∃ c, (my.SetReadOnly db readonly).2.calls = db.calls ++ [c] ∧
      c.timeout? = some my.queryTimeout) ∧
    (∃ c, (my.StartSlave db).2.calls = db.calls ++ [c] ∧ c.timeout? = some my.queryTimeout) ∧
    (∃ c, (my.StopSlave db).2.calls = db.calls ++ [c] ∧ c.timeout? = some my.queryTimeout) ∧
    (∃ c, (my.StartSlaveIOThread db).2.calls = db.calls ++ [c] ∧
      c.timeout? = some my.queryTimeout) ∧
    (∃ c, (my.StopSlaveIOThread db).2.calls = db.calls ++ [c] ∧
      c.timeout? = some my.queryTimeout) ∧
    (∃ c, (my.ChangeMasterTo db master).2.calls = db.calls ++ [c] ∧
      c.timeout? = some my.queryTimeout) ∧
    (∃ c, (my.ChangeToMaster db).2.calls = db.calls ++ [c] ∧
      c.timeout? = some my.queryTimeout) ∧
    (∃ c, (my.GetGTIDSubtract db subsetGTID setGTID).2.calls = db.calls ++ [c] ∧
      c.timeout? = some my.queryTimeout) ∧
    (my.WaitUntilAfterGTID db targetGTID).2.calls = db.calls ++
      [DBCall.Execute ("SELECT WAIT_UNTIL_SQL_THREAD_AFTER_GTIDS('" ++ targetGTID ++ "')")] ∧
    (DBCall.Execute
      ("SELECT WAIT_UNTIL_SQL_THREAD_AFTER_GTIDS('" ++ targetGTID ++ "')")).timeout? = none := by
  refine ⟨rfl, ⟨_, Ping_calls my db, rfl⟩, ⟨_, GetSlaveGTID_calls my db, rfl⟩,
    ⟨_, GetMasterGTID_calls my db, rfl⟩, ⟨_, GetUUID_calls my db, rfl⟩, ⟨_, rfl, rfl⟩,
    ⟨_, rfl, rfl⟩, ⟨_, rfl, rfl⟩, ⟨_, rfl, rfl⟩, ⟨_, rfl, rfl⟩, ⟨_, rfl, rfl⟩, ⟨_, rfl, rfl⟩,
    ⟨_, GetGTIDSubtract_calls my db subsetGTID setGTID, rfl⟩, rfl, rfl⟩

/-! ## Unparseable positions -/

theorem parseUintLoop_value_of_error (s0 : String) (cs : List Char) (n : Nat) :
    (parseUintLoop s0 n cs).2 ≠ none →
      (parseUintLoop s0 n cs).1 = 0 ∨ (parseUintLoop s0 n cs).1 = maxUint64 := by
  induction cs generalizing n with
  | nil => intro h; exact absurd rfl h
  | cons c cs ih =>
    intro h
    unfold parseUintLoop at h ⊢
    by_cases hd : 48 ≤ c.toNat ∧ c.toNat ≤ 57
    · simp only [hd, and_self, if_true] at h ⊢
      by_cases h1 : n ≥ maxUint64 / 10 + 1
      · simp only [h1, if_true]; exact Or.inr trivial
      · simp only [h1, if_false] at h ⊢
        by_cases h2 : n * 10 + (c.toNat - 48) > maxUint64
        · simp only [h2, if_true]; exact Or.inr trivial
        · simp only [h2, if_false] at h ⊢
          exact ih _ h
    · simp only [hd, if_false]; exact Or.inl trivial

theorem ParseUint_value_of_error (s : String) (h : (ParseUint s).2 ≠ none) :
    (ParseUint s).1 = 0 ∨ (ParseUint s).1 = maxUint64 := by
  unfold ParseUint at h ⊢
  by_cases hs : s = ""
  · simp only [hs, if_true]; exact Or.inl trivial
  · simp only [hs, if_false] at h ⊢
    exact parseUintLoop_value_of_error s s.data 0 h

/-- C5, counterexample: with a first row whose position column is not a valid unsigned 64-bit
decimal number, `GetSlaveGTID` and `GetMasterGTID` return no error and a record that is not the
zero record: the log file, the executed GTID set and the running flags are filled from the
row. -/
theorem GetGTID_unparseable_position_not_zero_record :
    (ParseUint (slaveStatusRow.get "Read_Master_Log_Pos")).2 ≠ none ∧
    (({} : MysqlBase).GetSlaveGTID sampleDB).1 =
      (some
        { Master_Log_File := "mysql-bin.000001"
          Read_Master_Log_Pos := 0
          Executed_GTID_Set := "uuid1:1-100"
          Slave_IO_Running := true
          Slave_IO_Running_Str := "Yes"
          Slave_SQL_Running := true
          Slave_SQL_Running_Str := "Yes" }, none) ∧
    (({} : MysqlBase).GetSlaveGTID sampleDB).1.1 ≠ some {} ∧
    (ParseUint (masterStatusRow.get "Position")).2 ≠ none ∧
    (({} : MysqlBase).GetMasterGTID sampleDB).1 =
      (some
        { Master_Log_File := "mysql-bin.000001"
          Read_Master_Log_Pos := 18446744073709551615
          Executed_GTID_Set := "uuid1:1-100"
          Seconds_Behind_Master := "0"
          Slave_IO_Running := true
          Slave_SQL_Running := true }, none) ∧
    (({} : MysqlBase).GetMasterGTID sampleDB).1.1 ≠ some {} := by
  decide

/-- C5, amended: when the first row of `SHOW SLAVE STATUS` (for `GetSlaveGTID`) or of
`SHOW MASTER STATUS` (for `GetMasterGTID`) has a position column that is not a valid unsigned
64-bit decimal number, the operation returns no error and a record whose position is the value
`strconv.ParseUint` returned with its error dropped, which is `0` or `2^64 - 1`; every other
field is filled as for a valid position: from the row for `GetSlaveGTID`, and for
`GetMasterGTID` the file and executed set from the row, `Seconds_Behind_Master = "0"`, both
running flags true and the remaining fields zero. -/
theorem GetGTID_unparseable_position (my : MysqlBase) (db : DB) :
    (∀ row rest,
      db.answer db.calls (DBCall.QueryWithTimeout my.queryTimeout "SHOW SLAVE STATUS") =
        .ok (row :: rest) →
      (ParseUint (row.get "Read_Master_Log_Pos")).2 ≠ none →
      (my.GetSlaveGTID db).1 =
        (some
          { Master_Log_File := row.get "Master_Log_File"
            Read_Master_Log_Pos := (ParseUint (row.get "Read_Master_Log_Pos")).1
            Retrieved_GTID_Set := row.get "Retrieved_Gtid_Set"
            Executed_GTID_Set := row.get "Executed_Gtid_Set"
            Slave_IO_Running := (row.get "Slave_IO_Running" == "Yes")
            Slave_IO_Running_Str := row.get "Slave_IO_Running"
            Slave_SQL_Running := (row.get "Slave_SQL_Running" == "Yes")
            Slave_SQL_Running_Str := row.get "Slave_SQL_Running"
            Seconds_Behind_Master := row.get "Seconds_Behind_Master"
            Last_Error := row.get "Last_Error"
            Last_IO_Error := row.get "Last_IO_Error"
            Last_SQL_Error := row.get "Last_SQL_Error"
            Slave_SQL_Running_State := row.get "Slave_SQL_Running_State" }, none) ∧
      ((ParseUint (row.get "Read_Master_Log_Pos")).1 = 0 ∨
        (ParseUint (row.get "Read_Master_Log_Pos")).1 = 2 ^ 64 - 1)) ∧
    (∀ row rest,
      db.answer db.calls (DBCall.QueryWithTimeout my.queryTimeout "SHOW MASTER STATUS") =
        .ok (row :: rest) →
      (ParseUint (row.get "Position")).2 ≠ none →
      (my.GetMasterGTID db).1 =
        (some
          { Master_Log_File := row.get "File"
            Read_Master_Log_Pos := (ParseUint (row.get "Position")).1
            Retrieved_GTID_Set := ""
            Executed_GTID_Set := row.get "Executed_Gtid_Set"
            Slave_IO_Running := true
            Slave_IO_Running_Str := ""
            Slave_SQL_Running := true
            Slave_SQL_Running_Str := ""
            Seconds_Behind_Master := "0"
            Last_Error := ""
            Last_IO_Error := ""
            Last_SQL_Error := ""
            Slave_SQL_Running_State := "" }, none) ∧
      ((ParseUint (row.get "Position")).1 = 0 ∨
        (ParseUint (row.get "Position")).1 = 2 ^ 64 - 1)) := by
  refine ⟨?_, ?_⟩
  · intro row rest hrow hpos
    refine ⟨?_, ParseUint_value_of_error _ hpos⟩
    simp only [MysqlBase.GetSlaveGTID, QueryWithTimeout, DB.submit, hrow]
  · intro row rest hrow hpos
    refine ⟨?_, ParseUint_value_of_error _ hpos⟩
    simp only [MysqlBase.GetMasterGTID, QueryWithTimeout, DB.submit, hrow]

/-- Witness of C5, amended, on the sample server: both status rows have an invalid position,
the slave one by syntax and the master one by range. -/
theorem GetGTID_unparseable_position_witness :
    ((ParseUint (slaveStatusRow.get "Read_Master_Log_Pos")).2 ≠ none ∧
      (({} : MysqlBase).GetSlaveGTID sampleDB).1 =
        (some
          { Master_Log_File := "mysql-bin.000001"
            Read_Master_Log_Pos := 0
            Executed_GTID_Set := "uuid1:1-100"
            Slave_IO_Running := true
            Slave_IO_Running_Str := "Yes"
            Slave_SQL_Running := true
            Slave_SQL_Running_Str := "Yes" }, none)) ∧
    ((ParseUint (masterStatusRow.get "Position")).2 ≠ none ∧
      (({} : MysqlBase).GetMasterGTID sampleDB).1 =
        (some
          { Master_Log_File := "mysql-bin.000001"
            Read_Master_Log_Pos := 2 ^ 64 - 1
            Executed_GTID_Set := "uuid1:1-100"
            Seconds_Behind_Master := "0"
            Slave_IO_Running := true
            Slave_SQL_Running := true }, none)) :=
  ⟨⟨by decide,
    (((GetGTID_unparseable_position {} sampleDB).1 slaveStatusRow [] rfl (by decide)).1).trans
      (by decide)⟩,
   ⟨by decide,
    (((GetGTID_unparseable_position {} sampleDB).2 masterStatusRow [] rfl (by decide)).1).trans
      (by decide)⟩⟩

/-! ## Shell hooks -/

/-- C6, counterexample: the leader-start hook runs `bash`, not `sh`. -/
theorem leaderStartShellCommand_runs_bash_not_sh :
    sampleRaft.leaderStartShellCommand.2.cmd.calls = [⟨"bash", ["-c", "start-vip.sh"]⟩] ∧
    sampleRaft.leaderStartShellCommand.2.cmd.calls ≠ [⟨"sh", ["-c", "start-vip.sh"]⟩] := by
  decide

/-- C6, amended: each of the three hooks makes exactly one call of the command runner, running
the shell `bash` with the arguments `["-c", C]`, where `C` is that hook's own configured
command (`LeaderStartCommand`, `LeaderStopCommand`, `LeaderFenceCommand`), and the hook returns
the runner's error: an error exactly when the runner returns one. -/
theorem hooks_run_bash_once (r : Raft) :
    (r.leaderStartShellCommand.2.cmd.calls =
        r.cmd.calls ++ [⟨"bash", ["-c", r.conf.LeaderStartCommand]⟩] ∧
      r.leaderStartShellCommand.1 =
        (r.cmd.answer r.cmd.calls ⟨"bash", ["-c", r.conf.LeaderStartCommand]⟩).2) ∧
    (r.leaderStopShellCommand.2.cmd.calls =
        r.cmd.calls ++ [⟨"bash", ["-c", r.conf.LeaderStopCommand]⟩] ∧
      r.leaderStopShellCommand.1 =
        (r.cmd.answer r.cmd.calls ⟨"bash", ["-c", r.conf.LeaderStopCommand]⟩).2) ∧
    (r.leaderFailoverShellCommand.2.cmd.calls =
        r.cmd.calls ++ [⟨"bash", ["-c", r.conf.LeaderFenceCommand]⟩] ∧
      r.leaderFailoverShellCommand.1 =
        (r.cmd.answer r.cmd.calls ⟨"bash", ["-c", r.conf.LeaderFenceCommand]⟩).2) := by
  refine ⟨?_, ?_, ?_⟩
  · simp only [Raft.leaderStartShellCommand, Command.RunCommand, bash]
    rcases h : r.cmd.answer r.cmd.calls ⟨"bash", ["-c", r.conf.LeaderStartCommand]⟩
      with ⟨out, _ | err⟩ <;> exact ⟨rfl, rfl⟩
  · simp only [Raft.leaderStopShellCommand, Command.RunCommand, bash]
    rcases h : r.cmd.answer r.cmd.calls ⟨"bash", ["-c", r.conf.LeaderStopCommand]⟩
      with ⟨out, _ | err⟩ <;> exact ⟨rfl, rfl⟩
  · simp only [Raft.leaderFailoverShellCommand, Command.RunCommand, bash]
    rcases h : r.cmd.answer r.cmd.calls ⟨"bash", ["-c", r.conf.LeaderFenceCommand]⟩
      with ⟨out, _ | err⟩ <;> exact ⟨rfl, rfl⟩

/-! ## Promotion, user creation and system variables -/

/-- C7: `ChangeToMaster` makes one call of `ExecuteSuperQueryListWithTimeout` with exactly the
two statements `STOP SLAVE`, `RESET SLAVE ALL`, in that order, and `ResetSlaveAll` does the
same. -/
theorem ChangeToMaster_statement_list (my : MysqlBase) (db : DB) :
    (my.ChangeToMaster db).2.calls = db.calls ++
      [DBCall.ExecuteSuperQueryListWithTimeout my.queryTimeout
        ["STOP SLAVE", "RESET SLAVE ALL"]] ∧
    (my.ResetSlaveAll db).2.calls = db.calls ++
      [DBCall.ExecuteSuperQueryListWithTimeout my.queryTimeout
        ["STOP SLAVE", "RESET SLAVE ALL"]] ∧
    my.ResetSlaveAll db = my.ChangeToMaster db :=
  ⟨rfl, rfl, rfl⟩

theorem HasPrefix_iff (s pfx : String) :
    HasPrefix s pfx = true ↔ ∃ rest : String, s = pfx ++ rest := by
  unfold HasPrefix
  rw [List.isPrefixOf_iff_prefix]
  constructor
  · rintro ⟨t, ht⟩
    exact ⟨⟨t⟩, String.ext (by rw [String.data_append, ht])⟩
  · rintro ⟨rest, h⟩
    exact ⟨rest.data, by rw [h, String.data_append]⟩

theorem lookup_normal (l : List String) (k : String) :
    (l.map (fun priv => (priv, priv))).lookup k = if k ∈ l then some k else none := by
  induction l with
  | nil => rfl
  | cons a l ih =>
    by_cases h : k = a
    · subst h; simp [List.lookup]
    · have h2 : (k == a) = false := by simpa using h
      simp [List.lookup, h2, ih, h]

theorem checkPrivs_eq_none_iff (up : Char → Char) (l : List String) (user : String)
    (privsList : List String) :
    checkPrivs up (l.map (fun priv => (priv, priv))) user privsList = none ↔
      ∀ p ∈ privsList, ToUpper up (TrimSpace p) ∈ l := by
  induction privsList with
  | nil => simp [checkPrivs]
  | cons p ps ih =>
    by_cases h : ToUpper up (TrimSpace p) ∈ l
    · simp [checkPrivs, lookup_normal, h, ih]
    · simp [checkPrivs, lookup_normal, h]

theorem ToUpper_YES (up : Char → Char) : ToUpper up "YES" = "YES" := by rfl

theorem ToUpper_NO (up : Char → Char) : ToUpper up "NO" = "NO" := by rfl

theorem CreateUser_calls (my : MysqlBase) (up : Char → Char) (db : DB)
    (user host passwd upperSSL : String) (h : upperSSL = "YES" ∨ upperSSL = "NO") :
    my.CreateUser up db user host passwd upperSSL =
      Execute db
        (if upperSSL = "YES" then
          "CREATE USER `" ++ user ++ "`@`" ++ host ++ "` IDENTIFIED BY '" ++ passwd ++
            "' REQUIRE X509"
        else "CREATE USER `" ++ user ++ "`@`" ++ host ++ "` IDENTIFIED BY '" ++ passwd ++ "'") := by
  rcases h with h | h
  · subst h
    simp only [MysqlBase.CreateUser, ToUpper_YES, SSLTypYes, if_true]
    congr 1
    apply String.ext
    simp only [String.data_append, List.append_assoc]
    rfl
  · subst h
    have hne : ("NO" : String) ≠ "YES" := by decide
    simp only [MysqlBase.CreateUser, ToUpper_NO, SSLTypYes, hne, if_false]

/-- C8: `GrantAllPrivileges` goes by the upper-cased `ssl`.  If it is neither `YES` nor `NO`
the result is the wrong-ssl_type error and the connection is untouched (no statement).  If it
is `YES` the first call is `Execute` of `CREATE USER ... REQUIRE X509`, if it is `NO` the same
statement without `REQUIRE X509`; the `GRANT ALL ... WITH GRANT OPTION` statement follows as
the second call when `CREATE USER` succeeded, and no further call is made when it failed. -/
theorem GrantAllPrivileges_by_ssl (my : MysqlBase) (up : Char → Char) (db : DB)
    (user host passwd ssl : String) :
    (ToUpper up ssl ≠ "YES" ∧ ToUpper up ssl ≠ "NO" →
      my.GrantAllPrivileges up db user host passwd ssl =
        (some ("wrong ssl_type[" ++ ssl ++ "], it should be 'YES' or 'NO'"), db)) ∧
    (ToUpper up ssl = "YES" ∨ ToUpper up ssl = "NO" →
      (my.GrantAllPrivileges up db user host passwd ssl).2.calls =
        db.calls ++
          (match db.answer db.calls
              (DBCall.Execute
                (if ToUpper up ssl = "YES" then
                  "CREATE USER `" ++ user ++ "`@`" ++ host ++ "` IDENTIFIED BY '" ++ passwd ++
                    "' REQUIRE X509"
                else
                  "CREATE USER `" ++ user ++ "`@`" ++ host ++ "` IDENTIFIED BY '" ++ passwd ++
                    "'")) with
            | .error _ =>
              [DBCall.Execute
                (if ToUpper up ssl = "YES" then
                  "CREATE USER `" ++ user ++ "`@`" ++ host ++ "` IDENTIFIED BY '" ++ passwd ++
                    "' REQUIRE X509"
                else
                  "CREATE USER `" ++ user ++ "`@`" ++ host ++ "` IDENTIFIED BY '" ++ passwd ++
                    "'")]
            | .ok _ =>
              [DBCall.Execute
                (if ToUpper up ssl = "YES" then
                  "CREATE USER `" ++ user ++ "`@`" ++ host ++ "` IDENTIFIED BY '" ++ passwd ++
                    "' REQUIRE X509"
                else
                  "CREATE USER `" ++ user ++ "`@`" ++ host ++ "` IDENTIFIED BY '" ++ passwd ++
                    "'"),
               DBCall.Execute
                ("GRANT ALL ON *.* TO `" ++ user ++ "`@`" ++ host ++
                  "` WITH GRANT OPTION")])) := by
  refine ⟨?_, ?_⟩
  · intro h
    simp only [MysqlBase.GrantAllPrivileges, SSLTypYes, SSLTypNo]
    rw [if_pos h]
  · intro h
    have hn : ¬ (ToUpper up ssl ≠ "YES" ∧ ToUpper up ssl ≠ "NO") := by
      rintro ⟨h1, h2⟩; rcases h with h | h
      · exact h1 h
      · exact h2 h
    simp only [MysqlBase.GrantAllPrivileges, SSLTypYes, SSLTypNo]
    rw [if_neg hn, CreateUser_calls my up db user host passwd _ h]
    simp only [Execute, DB.submit, MysqlBase.grantPrivileges]
    cases hans : db.answer db.calls
        (DBCall.Execute
          (if ToUpper up ssl = "YES" then
            "CREATE USER `" ++ user ++ "`@`" ++ host ++ "` IDENTIFIED BY '" ++ passwd ++
              "' REQUIRE X509"
          else
            "CREATE USER `" ++ user ++ "`@`" ++ host ++ "` IDENTIFIED BY '" ++ passwd ++
              "'")) with
    | error err => simp [errOf]
    | ok rows =>
      simp only [errOf, Join, mysqlAllPrivileges, List.append_assoc, List.cons_append,
        List.nil_append]
      rfl


/-- Witness of C8 on the sample server: `ssl = "yes"` gives `CREATE USER ... REQUIRE X509`
followed by the grant, and `ssl = "maybe"` gives the error and no call. -/
theorem GrantAllPrivileges_by_ssl_witness :
    (ToUpper id "maybe" ≠ "YES" ∧ ToUpper id "maybe" ≠ "NO") ∧
    ({} : MysqlBase).GrantAllPrivileges id sampleDB "u" "h" "p" "maybe" =
      (some "wrong ssl_type[maybe], it should be 'YES' or 'NO'", sampleDB) ∧
    (ToUpper id "yes" = "YES" ∨ ToUpper id "yes" = "NO") ∧
    (({} : MysqlBase).GrantAllPrivileges id sampleDB "u" "h" "p" "yes").2.calls =
      [DBCall.Execute "CREATE USER `u`@`h` IDENTIFIED BY 'p' REQUIRE X509",
       DBCall.Execute "GRANT ALL ON *.* TO `u`@`h` WITH GRANT OPTION"] :=
  ⟨by decide,
   (GrantAllPrivileges_by_ssl {} id sampleDB "u" "h" "p" "maybe").1 (by decide),
   by decide,
   ((GrantAllPrivileges_by_ssl {} id sampleDB "u" "h" "p" "yes").2 (by decide)).trans
     (by decide)⟩

/-- C9: `CreateUserWithPrivileges` returns an error and leaves the connection untouched (no
statement, the user is not created) whenever some element of `privs`, after one trailing
comma is removed and the rest is split on commas, is not in `mysqlNormalPrivileges` once
trimmed and upper-cased; so the empty string, `ALL` and a string with two trailing commas are
rejected.  When every element is in the list and the upper-cased `ssl` is `YES` or `NO`, the
first call is `Execute` of the `CREATE USER` statement. -/
theorem CreateUserWithPrivileges_validation (my : MysqlBase) (up : Char → Char) (db : DB)
    (user passwd database table host privs ssl : String) :
    ((∃ p ∈ Split (TrimSuffix privs ",") ',',
        ToUpper up (TrimSpace p) ∉ mysqlNormalPrivileges) →
      (my.CreateUserWithPrivileges up db user passwd database table host privs ssl).1 ≠ none ∧
      (my.CreateUserWithPrivileges up db user passwd database table host privs ssl).2 = db) ∧
    ((my.CreateUserWithPrivileges up db user passwd database table host "" ssl).1 ≠ none ∧
      (my.CreateUserWithPrivileges up db user passwd database table host "" ssl).2 = db) ∧
    ((my.CreateUserWithPrivileges up db user passwd database table host "ALL" ssl).1 ≠ none ∧
      (my.CreateUserWithPrivileges up db user passwd database table host "ALL" ssl).2 = db) ∧
    ((my.CreateUserWithPrivileges up db user passwd database table host "SELECT,," ssl).1
        ≠ none ∧
      (my.CreateUserWithPrivileges up db user passwd database table host "SELECT,," ssl).2
        = db) ∧
    ((∀ p ∈ Split (TrimSuffix privs ",") ',',
        ToUpper up (TrimSpace p) ∈ mysqlNormalPrivileges) →
      (ToUpper up ssl = "YES" ∨ ToUpper up ssl = "NO") →
      ∃ rest,
        (my.CreateUserWithPrivileges up db user passwd database table host privs ssl).2.calls =
          db.calls ++
            DBCall.Execute
              (if ToUpper up ssl = "YES" then
                "CREATE USER `" ++ user ++ "`@`" ++ host ++ "` IDENTIFIED BY '" ++ passwd ++
                  "' REQUIRE X509"
              else
                "CREATE USER `" ++ user ++ "`@`" ++ host ++ "` IDENTIFIED BY '" ++ passwd ++
                  "'") :: rest) := by
  have reject : ∀ privs : String,
      (∃ p ∈ Split (TrimSuffix privs ",") ',',
        ToUpper up (TrimSpace p) ∉ mysqlNormalPrivileges) →
      (my.CreateUserWithPrivileges up db user passwd database table host privs ssl).1 ≠ none ∧
      (my.CreateUserWithPrivileges up db user passwd database table host privs ssl).2 = db := by
    intro privs hbad
    have hne : checkPrivs up (mysqlNormalPrivileges.map (fun priv => (priv, priv))) user
        (Split (TrimSuffix privs ",") ',') ≠ none := by
      rw [Ne, checkPrivs_eq_none_iff]
      rintro hall
      obtain ⟨p, hp, hnot⟩ := hbad
      exact hnot (hall p hp)
    simp only [MysqlBase.CreateUserWithPrivileges]
    cases hc : checkPrivs up (mysqlNormalPrivileges.map (fun priv => (priv, priv))) user
        (Split (TrimSuffix privs ",") ',') with
    | none => exact absurd hc hne
    | some err => exact ⟨by simp, rfl⟩
  refine ⟨reject privs, reject "" ⟨"", by decide, ?_⟩, reject "ALL" ⟨"ALL", by decide, ?_⟩,
    reject "SELECT,," ⟨"", by decide, ?_⟩, ?_⟩
  · have h : ToUpper up (TrimSpace "") = "" := rfl
    rw [h]; decide
  · have h : ToUpper up (TrimSpace "ALL") = "ALL" := rfl
    rw [h]; decide
  · have h : ToUpper up (TrimSpace "") = "" := rfl
    rw [h]; decide
  · intro hall hssl
    have hc := (checkPrivs_eq_none_iff up mysqlNormalPrivileges user
      (Split (TrimSuffix privs ",") ',')).2 hall
    have hn : ¬ (ToUpper up ssl ≠ "YES" ∧ ToUpper up ssl ≠ "NO") := by
      rintro ⟨h1, h2⟩; rcases hssl with h | h
      · exact h1 h
      · exact h2 h
    simp only [MysqlBase.CreateUserWithPrivileges, hc, SSLTypYes, SSLTypNo]
    rw [if_neg hn, CreateUser_calls my up db user host passwd _ hssl]
    simp only [Execute, DB.submit, MysqlBase.grantPrivileges]
    cases hans : db.answer db.calls
        (DBCall.Execute
          (if ToUpper up ssl = "YES" then
            "CREATE USER `" ++ user ++ "`@`" ++ host ++ "` IDENTIFIED BY '" ++ passwd ++
              "' REQUIRE X509"
          else
            "CREATE USER `" ++ user ++ "`@`" ++ host ++ "` IDENTIFIED BY '" ++ passwd ++
              "'")) with
    | error err => exact ⟨[], by simp [errOf]⟩
    | ok rows =>
      refine ⟨[DBCall.Execute ("GRANT " ++ TrimSuffix privs "," ++ " ON " ++ database ++ "." ++
        table ++ " TO `" ++ user ++ "`@`" ++ host ++ "`")], ?_⟩
      simp only [errOf, List.append_assoc, List.cons_append, List.nil_append]


/-- Witness of C9 on the sample server: `SELECT,SUPER` is rejected with no call, and
`select, insert,` with `ssl = "no"` passes validation and starts with `CREATE USER`. -/
theorem CreateUserWithPrivileges_validation_witness :
    (∃ p ∈ Split (TrimSuffix "SELECT,SUPER" ",") ',',
      ToUpper id (TrimSpace p) ∉ mysqlNormalPrivileges) ∧
    ((({} : MysqlBase).CreateUserWithPrivileges id sampleDB "u" "pw" "db1" "t1" "h"
        "SELECT,SUPER" "no").1 ≠ none ∧
      (({} : MysqlBase).CreateUserWithPrivileges id sampleDB "u" "pw" "db1" "t1" "h"
        "SELECT,SUPER" "no").2 = sampleDB) ∧
    (∀ p ∈ Split (TrimSuffix "select, insert," ",") ',',
      ToUpper id (TrimSpace p) ∈ mysqlNormalPrivileges) ∧
    (ToUpper id "no" = "YES" ∨ ToUpper id "no" = "NO") ∧
    (∃ rest,
      (({} : MysqlBase).CreateUserWithPrivileges id sampleDB "u" "pw" "db1" "t1" "h"
        "select, insert," "no").2.calls =
        sampleDB.calls ++
          DBCall.Execute
            (if ToUpper id "no" = "YES" then
              "CREATE USER `" ++ "u" ++ "`@`" ++ "h" ++ "` IDENTIFIED BY '" ++ "pw" ++
                "' REQUIRE X509"
            else
              "CREATE USER `" ++ "u" ++ "`@`" ++ "h" ++ "` IDENTIFIED BY '" ++ "pw" ++
                "'") :: rest) :=
  ⟨by decide,
   (CreateUserWithPrivileges_validation {} id sampleDB "u" "pw" "db1" "t1" "h"
      "SELECT,SUPER" "no").1 (by decide),
   by decide, by decide,
   (CreateUserWithPrivileges_validation {} id sampleDB "u" "pw" "db1" "t1" "h"
      "select, insert," "no").2.2.2.2 (by decide) (by decide)⟩

/-- C10: `SetGlobalSysVar` returns an error and makes no call exactly when `varsql` does not
begin with `SET GLOBAL` (compared character by character, so case-sensitively); when `varsql`
begins with it, the one call made is `ExecuteWithTimeout` of `varsql` itself, unmodified. -/
theorem SetGlobalSysVar_requires_SET_GLOBAL (my : MysqlBase) (db : DB) (varsql : String) :
    (((my.SetGlobalSysVar db varsql).1 ≠ none ∧
        (my.SetGlobalSysVar db varsql).2.calls = db.calls) ↔
      ¬ ∃ rest : String, varsql = "SET GLOBAL" ++ rest) ∧
    ((∃ rest : String, varsql = "SET GLOBAL" ++ rest) →
      (my.SetGlobalSysVar db varsql).2.calls =
        db.calls ++ [DBCall.ExecuteWithTimeout my.queryTimeout varsql]) := by
  rw [← HasPrefix_iff]
  by_cases h : HasPrefix varsql "SET GLOBAL" = true
  · have hcalls : (my.SetGlobalSysVar db varsql).2.calls =
        db.calls ++ [DBCall.ExecuteWithTimeout my.queryTimeout varsql] := by
      simp [MysqlBase.SetGlobalSysVar, h, ExecuteWithTimeout, DB.submit]
    refine ⟨⟨?_, fun hn => absurd h hn⟩, fun _ => hcalls⟩
    rintro ⟨_, hsame⟩
    rw [hcalls] at hsame
    have hlen := congrArg List.length hsame
    simp at hlen
  · refine ⟨⟨fun _ => h, fun _ => ?_⟩, fun hp => absurd hp h⟩
    have hf : HasPrefix varsql "SET GLOBAL" = false := by simpa using h
    simp [MysqlBase.SetGlobalSysVar, hf]

/-- Witness of C10 on the sample server: a lower-case `set global` is refused without a call,
and `SET GLOBAL read_only = 1` is executed as it is. -/
theorem SetGlobalSysVar_requires_SET_GLOBAL_witness :
    (¬ ∃ rest : String, "set global read_only = 1" = "SET GLOBAL" ++ rest) ∧
    ((({} : MysqlBase).SetGlobalSysVar sampleDB "set global read_only = 1").1 ≠ none ∧
      (({} : MysqlBase).SetGlobalSysVar sampleDB "set global read_only = 1").2.calls =
        sampleDB.calls) ∧
    (∃ rest : String, "SET GLOBAL read_only = 1" = "SET GLOBAL" ++ rest) ∧
    (({} : MysqlBase).SetGlobalSysVar sampleDB "SET GLOBAL read_only = 1").2.calls =
      sampleDB.calls ++ [DBCall.ExecuteWithTimeout 10000 "SET GLOBAL read_only = 1"] :=
  ⟨(HasPrefix_iff _ _).not.1 (by decide),
   (SetGlobalSysVar_requires_SET_GLOBAL {} sampleDB "set global read_only = 1").1.2
     ((HasPrefix_iff _ _).not.1 (by decide)),
   ⟨" read_only = 1", by decide⟩,
   (SetGlobalSysVar_requires_SET_GLOBAL {} sampleDB "SET GLOBAL read_only = 1").2
     ⟨" read_only = 1", by decide⟩⟩

/-! ## Administrator toggles -/

/-- C11: on the administrator toggles, `EnablePurgeBinlog` sets `skip_purge_binlog` to false
and `DisablePurgeBinlog` sets it to true; `EnableCheckSemiSync` sets `skip_check_semi_sync` to
false and `DisableCheckSemiSync` sets it to true.  Each of the four returns no error and leaves
the response as it was, writes only its own toggle (everything else of the node, the other
toggle included, is unchanged), and is idempotent; from any state `DisablePurgeBinlog` followed
by `EnablePurgeBinlog` leaves `skip_purge_binlog` false. -/
theorem admin_toggles_set_own_flag_only {Req Rsp : Type} (r : RaftRPC) (req : Req) (rsp : Rsp) :
    ((r.EnablePurgeBinlog req rsp).2.raft.skip_purge_binlog = false ∧
      (r.DisablePurgeBinlog req rsp).2.raft.skip_purge_binlog = true ∧
      (r.EnableCheckSemiSync req rsp).2.raft.skip_check_semi_sync = false ∧
      (r.DisableCheckSemiSync req rsp).2.raft.skip_check_semi_sync = true) ∧
    ((r.EnablePurgeBinlog req rsp).1 = (none, rsp) ∧
      (r.DisablePurgeBinlog req rsp).1 = (none, rsp) ∧
      (r.EnableCheckSemiSync req rsp).1 = (none, rsp) ∧
      (r.DisableCheckSemiSync req rsp).1 = (none, rsp)) ∧
    ((r.EnablePurgeBinlog req rsp).2.raft = { r.raft with skip_purge_binlog := false } ∧
      (r.DisablePurgeBinlog req rsp).2.raft = { r.raft with skip_purge_binlog := true } ∧
      (r.EnableCheckSemiSync req rsp).2.raft = { r.raft with skip_check_semi_sync := false } ∧
      (r.DisableCheckSemiSync req rsp).2.raft =
        { r.raft with skip_check_semi_sync := true }) ∧
    ((r.EnablePurgeBinlog req rsp).2.raft.skip_check_semi_sync = r.raft.skip_check_semi_sync ∧
      (r.DisablePurgeBinlog req rsp).2.raft.skip_check_semi_sync =
        r.raft.skip_check_semi_sync ∧
      (r.EnableCheckSemiSync req rsp).2.raft.skip_purge_binlog = r.raft.skip_purge_binlog ∧
      (r.DisableCheckSemiSync req rsp).2.raft.skip_purge_binlog = r.raft.skip_purge_binlog) ∧
    (((r.EnablePurgeBinlog req rsp).2.EnablePurgeBinlog req rsp).2 =
        (r.EnablePurgeBinlog req rsp).2 ∧
      ((r.DisablePurgeBinlog req rsp).2.DisablePurgeBinlog req rsp).2 =
        (r.DisablePurgeBinlog req rsp).2 ∧
      ((r.EnableCheckSemiSync req rsp).2.EnableCheckSemiSync req rsp).2 =
        (r.EnableCheckSemiSync req rsp).2 ∧
      ((r.DisableCheckSemiSync req rsp).2.DisableCheckSemiSync req rsp).2 =
        (r.DisableCheckSemiSync req rsp).2) ∧
    ((r.DisablePurgeBinlog req rsp).2.EnablePurgeBinlog req rsp).2.raft.skip_purge_binlog =
      false := by
  refine ⟨⟨rfl, rfl, rfl, rfl⟩, ⟨rfl, rfl, rfl, rfl⟩, ⟨rfl, rfl, rfl, rfl⟩,
    ⟨rfl, rfl, rfl, rfl⟩, ⟨rfl, rfl, rfl, rfl⟩, rfl⟩

end Xenon
